import Mathlib

/-!
Verification of the deno-mcp server core: a shallow embedding of the
subprocess execution engine (`src/utils/command.ts`), the operation
dispatcher (`src/index.ts`), and the HTTP session manager
(the StreamableHTTP server file), together with theorems settling the
specification claims about them.

Conventions of the embedding:
* JavaScript numbers that hold exit codes, timeouts and durations are
  modelled as `Int`.
* A JavaScript value that may be `null`/`undefined` is an `Option`.
* A promise that either resolves or rejects with a typed error is
  `Except ε α`.
* JavaScript string truthiness (`""` is falsy) is modelled explicitly.
-/

namespace DenoMcp

/-! ## Data model from `src/types/index.ts` -/

/-- `DenoCommandResult` from `src/types/index.ts`:
`{success, stdout, stderr, code, duration}`. -/
structure DenoCommandResult where
  success : Bool
  stdout : String
  stderr : String
  code : Int
  duration : Int
  deriving Repr, DecidableEq

/-- `DenoCommandError` from `src/types/index.ts`: an error carrying the
message, exit code and both captured streams. -/
structure DenoCommandError where
  message : String
  code : Int
  stdout : String
  stderr : String
  deriving Repr, DecidableEq

/-- `DenoCommandOptions` from `src/types/index.ts` (the fields
`executeCommand` destructures; every field is optional in TypeScript). -/
structure DenoCommandOptions where
  workingDirectory : Option String := none
  permissions : Option (List String) := none
  envVars : Option (List (String × String)) := none
  timeout : Option Int := none
  deriving Repr

/-! ## Process Runner from `src/utils/command.ts` -/

/-- JavaScript `x || d` on a nullable number: `null`/`undefined` and `0`
are falsy and give `d`, any other number gives itself. -/
def jsNumOr (x : Option Int) (d : Int) : Int :=
  match x with
  | none => d
  | some v => if v = 0 then d else v

/-- Printing of a nullable exit code inside a template literal:
`null` prints as `"null"`. -/
def codeText (code : Option Int) : String :=
  match code with
  | none => "null"
  | some v => toString v

/-- The `close` event handler of `executeCommand`
(`src/utils/command.ts` lines 81–101): exit code `0` resolves with a
successful `DenoCommandResult`; any other code rejects with a
`DenoCommandError` carrying the code and both captured streams. -/
def closeHandler (code : Option Int) (stdout stderr : String)
    (duration : Int) : Except DenoCommandError DenoCommandResult :=
  let result : DenoCommandResult :=
    { success := code = some 0
      stdout := stdout
      stderr := stderr
      code := jsNumOr code 0
      duration := duration }
  if code = some 0 then
    .ok result
  else
    .error
      { message := "Deno command failed with code " ++ codeText code
        code := jsNumOr code 1
        stdout := stdout
        stderr := stderr }

/-- The `error` event handler of `executeCommand`
(`src/utils/command.ts` lines 104–112): a spawn failure rejects with
code 1 and whatever was captured. -/
def errorHandler (message stdout stderr : String) :
    Except DenoCommandError DenoCommandResult :=
  .error
    { message := "Failed to execute Deno command: " ++ message
      code := 1
      stdout := stdout
      stderr := stderr }

/-- The timeout callback of `executeCommand`
(`src/utils/command.ts` lines 116–124): rejects with code 124 and the
output captured so far. -/
def timeoutHandler (timeoutMs : Int) (stdout stderr : String) :
    Except DenoCommandError DenoCommandResult :=
  .error
    { message := "Command timed out after " ++ toString timeoutMs ++ "ms"
      code := 124
      stdout := stdout
      stderr := stderr }

/-- The three ways the promise inside `executeCommand` can settle: the
child's `close` event, the child's `error` event, or the armed timeout
firing. -/
inductive ProcessEvent where
  | close (code : Option Int)
  | spawnError (message : String)
  | timeoutFired
  deriving Repr, DecidableEq

/-- Settlement of the `executeCommand` promise: which handler runs for
which event, given the streams captured at that moment. -/
def settle (ev : ProcessEvent) (stdout stderr : String)
    (timeoutMs duration : Int) : Except DenoCommandError DenoCommandResult :=
  match ev with
  | .close code => closeHandler code stdout stderr duration
  | .spawnError m => errorHandler m stdout stderr
  | .timeoutFired => timeoutHandler timeoutMs stdout stderr

/-- The effective timeout of `executeCommand`
(`src/utils/command.ts` line 48): the destructuring default is 30000 ms. -/
def effectiveTimeout (options : DenoCommandOptions) : Int :=
  options.timeout.getD 30000

/-- Whether `executeCommand` arms its timeout
(`src/utils/command.ts` line 115): only when the timeout is positive. -/
def timerArmed (options : DenoCommandOptions) : Bool :=
  effectiveTimeout options > 0

/-- Signals `executeCommand` can send to the child. -/
inductive Signal where
  | SIGTERM
  deriving Repr, DecidableEq

/-- What the timeout callback does when it fires
(`src/utils/command.ts` lines 116–124): send SIGTERM to the child and
reject with the timed-out error carrying the streams captured so far.
No further (forced) kill is issued. -/
def timeoutAction (timeoutMs : Int) (stdout stderr : String) :
    Signal × Except DenoCommandError DenoCommandResult :=
  (Signal.SIGTERM, timeoutHandler timeoutMs stdout stderr)

/-- The argument vector `executeCommand` passes to `spawn`
(`src/utils/command.ts` line 55): permissions, then the operation's
arguments. -/
def commandArgs (permissions args : List String) : List String :=
  permissions ++ args

/-! ## Argument Translator from `src/utils/command.ts` -/

/-- `permission.startsWith('--')`: the token's first two characters are
dashes. -/
def startsWithDashDash (s : String) : Bool :=
  s.data.take 2 = ['-', '-']

/-- The per-token branch of `buildPermissionArgs`
(`src/utils/command.ts` lines 136–171): a token already prefixed with
`--` passes through; a recognized shorthand maps to its canonical flag;
anything else passes through unchanged. -/
def permMap (permission : String) : String :=
  if startsWithDashDash permission then
    permission
  else if permission = "read" then "--allow-read"
  else if permission = "write" then "--allow-write"
  else if permission = "net" then "--allow-net"
  else if permission = "env" then "--allow-env"
  else if permission = "run" then "--allow-run"
  else if permission = "ffi" then "--allow-ffi"
  else if permission = "hrtime" then "--allow-hrtime"
  else if permission = "sys" then "--allow-sys"
  else if permission = "all" then "--allow-all"
  else permission

/-- `buildPermissionArgs` (`src/utils/command.ts` lines 132–176): the
loop pushes exactly one translated token per input token, in order. -/
def buildPermissionArgs : List String → List String
  | [] => []
  | permission :: rest => permMap permission :: buildPermissionArgs rest

/-- The nine recognized shorthand permission names. -/
def shorthandNames : List String :=
  ["read", "write", "net", "env", "run", "ffi", "hrtime", "sys", "all"]

/-! ## Operation Dispatcher from `src/index.ts` -/

/-- A JavaScript runtime value, as far as `validateArguments` can
distinguish values: `typeof` plus `Array.isArray`. Array elements are
never inspected by validation, but they are part of the value. -/
inductive JsValue where
  | str (s : String)
  | num (n : Int)
  | bool (b : Bool)
  | arr (elems : List JsValue)
  | objOther
  | nullv

/-- The error codes of the MCP SDK used by `src/index.ts`. -/
inductive ErrorCode where
  | invalidParams
  | methodNotFound
  | internalError
  deriving Repr, DecidableEq

/-- `McpError` as thrown by `src/index.ts`: a code and a message. -/
structure McpError where
  code : ErrorCode
  message : String
  deriving Repr, DecidableEq

/-- The declared primitive kind of a schema property. `validateArguments`
checks only `string`, `number`, `boolean` and `array`; any other
declared type is never checked. -/
inductive SType where
  | string
  | number
  | boolean
  | array
  | other
  deriving Repr, DecidableEq

/-- An `inputSchema` as consumed by `validateArguments`
(`src/index.ts` lines 57–107): a `properties` object (possibly absent)
and an optional `required` list. -/
structure Schema where
  properties : Option (List (String × SType))
  required : Option (List String)

/-- An argument object: its own enumerable entries in insertion order.
Keys are unique, as in a JavaScript object. -/
abbrev Args := List (String × JsValue)

/-- `typeof value === "string"` for the embedded value model. -/
def isString : JsValue → Bool
  | .str _ => true
  | _ => false

/-- `typeof value === "number"` for the embedded value model. -/
def isNumber : JsValue → Bool
  | .num _ => true
  | _ => false

/-- `typeof value === "boolean"` for the embedded value model. -/
def isBoolean : JsValue → Bool
  | .bool _ => true
  | _ => false

/-- `Array.isArray(value)` for the embedded value model. -/
def isArray : JsValue → Bool
  | .arr _ => true
  | _ => false

/-- The required-key loop of `validateArguments`
(`src/index.ts` lines 61–70): the first required key not present in
`args` throws `InvalidParams` naming it. -/
def checkRequired (args : Args) : List String → Except McpError Unit
  | [] => .ok ()
  | k :: rest =>
    if (args.lookup k).isSome then checkRequired args rest
    else .error ⟨.invalidParams, "Missing required parameter: " ++ k⟩

/-- The four type checks of `validateArguments`
(`src/index.ts` lines 77–103) for one entry whose property schema
declares type `t`: a mismatch throws `InvalidParams` naming the key and
the expected kind. -/
def checkEntryType (k : String) (v : JsValue) : SType → Except McpError Unit
  | .string =>
    if isString v then .ok ()
    else .error ⟨.invalidParams, "Parameter " ++ k ++ " must be a string"⟩
  | .number =>
    if isNumber v then .ok ()
    else .error ⟨.invalidParams, "Parameter " ++ k ++ " must be a number"⟩
  | .boolean =>
    if isBoolean v then .ok ()
    else .error ⟨.invalidParams, "Parameter " ++ k ++ " must be a boolean"⟩
  | .array =>
    if isArray v then .ok ()
    else .error ⟨.invalidParams, "Parameter " ++ k ++ " must be an array"⟩
  | .other => .ok ()

/-- The declared kind of a property as named in the mismatch message of
`validateArguments`. -/
def kindText : SType → String
  | .string => "a string"
  | .number => "a number"
  | .boolean => "a boolean"
  | .array => "an array"
  | .other => ""

/-- Whether a present value satisfies its declared kind, as
`validateArguments` checks it (kinds other than the four primitive ones
are never checked, hence always pass). -/
def typeMatches : SType → JsValue → Bool
  | .string, v => isString v
  | .number, v => isNumber v
  | .boolean, v => isBoolean v
  | .array, v => isArray v
  | .other, _ => true

/-- The `Object.entries(args)` loop of `validateArguments`
(`src/index.ts` lines 73–104): entries without a property schema are
skipped (`if (!propSchema) continue`); declared entries are
type-checked. -/
def checkTypes (props : List (String × SType)) : Args → Except McpError Unit
  | [] => .ok ()
  | (k, v) :: rest =>
    match props.lookup k with
    | none => checkTypes props rest
    | some t =>
      match checkEntryType k v t with
      | .error e => .error e
      | .ok _ => checkTypes props rest

/-- `validateArguments` (`src/index.ts` lines 57–107): no schema or no
`properties` passes; otherwise required keys are checked first, then
the types of the present declared entries. -/
def validateArguments (args : Args) (schema : Option Schema) :
    Except McpError Unit :=
  match schema with
  | none => .ok ()
  | some s =>
    match s.properties with
    | none => .ok ()
    | some props =>
      match checkRequired args (s.required.getD []) with
      | .error e => .error e
      | .ok _ => checkTypes props args

/-- What a handler invocation can throw past the dispatcher's `try`:
an `McpError` (from nested validation or the handler itself), or an
arbitrary JavaScript exception — `some m` for an `Error` with message
`m`, `none` for a thrown non-`Error` value. -/
inductive JsError where
  | mcp (e : McpError)
  | js (message : Option String)

/-- A registered tool as the dispatcher sees it: its `inputSchema` and
its `handler`. The handler either returns a result or throws. -/
structure Tool (α : Type) where
  inputSchema : Option Schema
  handler : Args → Except JsError α

/-- The body of the dispatcher's `try` block
(`src/index.ts` lines 154–160): validate, then run the handler. A
validation throw is an `McpError` escaping the block. -/
def tryBody {α : Type} (tool : Tool α) (args : Args) : Except JsError α :=
  match validateArguments args tool.inputSchema with
  | .error e => .error (.mcp e)
  | .ok _ => tool.handler args

/-- The dispatcher's `catch` block (`src/index.ts` lines 161–172): an
`McpError` is rethrown unchanged; anything else is rewrapped as an
`InternalError` with the underlying message attached (`"Unknown error"`
when the thrown value is not an `Error`). -/
def catchWrap {α : Type} : Except JsError α → Except McpError α
  | .ok r => .ok r
  | .error (.mcp e) => .error e
  | .error (.js m) =>
    .error ⟨.internalError, "Tool execution failed: " ++ m.getD "Unknown error"⟩

/-- The `CallToolRequestSchema` handler (`src/index.ts` lines 145–173):
look up the tool (unknown name throws `MethodNotFound` outside the
`try`), default absent arguments to `{}`, then run the guarded body. -/
def dispatchTool {α : Type} (tools : List (String × Tool α)) (name : String)
    (args : Option Args) : Except McpError α :=
  match tools.lookup name with
  | none => .error ⟨.methodNotFound, "Unknown tool: " ++ name⟩
  | some tool => catchWrap (tryBody tool (args.getD []))

/-! ## Session Manager from the HTTP server file -/

/-- The session map: the set of identifiers registered in the global
`transports` object (keys of an object are unique). -/
abbrev SessionMap := List String

/-- The `transport.onclose` cleanup — the code's realization of the
spec's `closeSession`: if the transport has a (truthy) session
identifier that is still registered, delete it from the map; otherwise
do nothing. Deleting a key from an object removes its binding. -/
def closeSession (m : SessionMap) (sid : Option String) : SessionMap :=
  match sid with
  | none => m
  | some s =>
    if s ≠ "" ∧ s ∈ m then m.filter (fun k => k ≠ s)
    else m

/-- The three outcomes of routing an HTTP POST in `mcpPostHandler`:
reuse an existing transport, create a new session (the initialization
branch), or reject with a client error (HTTP status and JSON-RPC
code). -/
inductive PostAction where
  | reuse (sid : String)
  | newSession
  | badRequest (httpStatus : Nat) (rpcCode : Int)
  deriving Repr, DecidableEq

/-- The routing decision of `mcpPostHandler`: a truthy identifier known
to the map reuses its transport (`sessionId && transports[sessionId]`);
otherwise a falsy identifier on an initialization request creates a
session (`!sessionId && isInitializeRequest(req.body)`); everything
else is answered `400`/`-32000` and the handler returns before any
transport handles the request. -/
def routePost (m : SessionMap) (sessionId : Option String)
    (isInit : Bool) : PostAction :=
  match sessionId with
  | none => if isInit then .newSession else .badRequest 400 (-32000)
  | some sid =>
    if sid ≠ "" ∧ sid ∈ m then .reuse sid
    else if sid = "" ∧ isInit then .newSession
    else .badRequest 400 (-32000)

/-- The session map after `mcpPostHandler` finishes routing: only the
initialization branch registers a (freshly generated) identifier, via
`onsessioninitialized`; every other branch leaves the map unchanged. -/
def mapAfterPost (m : SessionMap) (sessionId : Option String)
    (isInit : Bool) (freshId : String) : SessionMap :=
  match routePost m sessionId isInit with
  | .newSession => freshId :: m
  | _ => m

/-- Whether the POST route lets any transport handle the request (and
hence lets a handler spawn a process): only the reuse and
initialization branches reach `transport.handleRequest`. -/
def postHandlesRequest (m : SessionMap) (sessionId : Option String)
    (isInit : Bool) : Bool :=
  match routePost m sessionId isInit with
  | .badRequest _ _ => false
  | _ => true

/-! ## Theorems -/

/-- C1: when the child exits, exit code 0 resolves with a successful
`ExecutionResult`, and any non-zero exit code rejects with the
`ProcessFailed` classification (`DenoCommandError`) carrying that exit
code and both captured streams. -/
theorem close_exit_classification (code : Int) (stdout stderr : String)
    (duration : Int) (hnz : code ≠ 0) :
    (∃ r, closeHandler (some 0) stdout stderr duration = .ok r ∧
      r.success = true ∧ r.code = 0 ∧ r.stdout = stdout ∧
      r.stderr = stderr) ∧
    closeHandler (some code) stdout stderr duration =
      .error ⟨"Deno command failed with code " ++ toString code,
        code, stdout, stderr⟩ := by
  constructor
  · refine ⟨_, rfl, ?_, ?_, rfl, rfl⟩ <;> simp [closeHandler, jsNumOr]
  · simp [closeHandler, jsNumOr, codeText, hnz]

/-- Witness for C1 at exit code 2 with `"bad flag"` on standard error:
the scenario-B instance `ProcessFailed{code: 2, stderr: "bad flag"}`. -/
theorem close_exit_classification_witness :
    (∃ r, closeHandler (some 0) "" "bad flag" 5 = .ok r ∧
      r.success = true ∧ r.code = 0 ∧ r.stdout = "" ∧
      r.stderr = "bad flag") ∧
    closeHandler (some 2) "" "bad flag" 5 =
      .error ⟨"Deno command failed with code 2", 2, "", "bad flag"⟩ :=
  close_exit_classification 2 "" "bad flag" 5 (by decide)

/-- C2: the timeout defaults to 30000 ms, a timeout of 0 leaves the
timer unarmed, and a positive timeout, when it fires, sends SIGTERM to
the child and rejects with the timed-out error carrying the output
captured so far. -/
theorem executeCommand_timeout_policy (t : Int) (stdout stderr : String)
    (o : DenoCommandOptions) (hpos : 0 < t) :
    effectiveTimeout {} = 30000 ∧
    (o.timeout = none → effectiveTimeout o = 30000) ∧
    timerArmed { timeout := some 0 } = false ∧
    (o.timeout = some t → timerArmed o = true) ∧
    timeoutAction t stdout stderr =
      (Signal.SIGTERM,
        .error ⟨"Command timed out after " ++ toString t ++ "ms",
          124, stdout, stderr⟩) := by
  refine ⟨rfl, ?_, ?_, ?_, rfl⟩
  · intro h; simp [effectiveTimeout, h]
  · simp [timerArmed, effectiveTimeout]
  · intro h; simp [timerArmed, effectiveTimeout, h, hpos]

/-- Witness for C2 at a 5 ms timeout with captured streams. -/
theorem executeCommand_timeout_policy_witness :
    effectiveTimeout {} = 30000 ∧
    (DenoCommandOptions.timeout { timeout := some 5 } = none →
      effectiveTimeout { timeout := some 5 } = 30000) ∧
    timerArmed { timeout := some 0 } = false ∧
    (DenoCommandOptions.timeout { timeout := some 5 } = some 5 →
      timerArmed { timeout := some 5 } = true) ∧
    timeoutAction 5 "out" "err" =
      (Signal.SIGTERM,
        .error ⟨"Command timed out after " ++ toString (5 : Int) ++ "ms",
          124, "out", "err"⟩) :=
  executeCommand_timeout_policy 5 "out" "err" { timeout := some 5 }
    (by decide)

/-- C9: the runner only ever resolves on the `close` path with exit
code 0, so every `ExecutionResult` it actually returns has
`success = true` and `code = 0`; all other settlements reject. -/
theorem settle_ok_implies_success (ev : ProcessEvent)
    (stdout stderr : String) (timeoutMs duration : Int)
    (r : DenoCommandResult)
    (h : settle ev stdout stderr timeoutMs duration = .ok r) :
    r.success = true ∧ r.code = 0 := by
  cases ev with
  | spawnError m => simp [settle, errorHandler] at h
  | timeoutFired => simp [settle, timeoutHandler] at h
  | close code =>
    by_cases hc : code = some 0
    · subst hc
      have hval : settle (.close (some 0)) stdout stderr timeoutMs duration =
          .ok { success := true, stdout := stdout, stderr := stderr,
                code := 0, duration := duration } := by
        simp [settle, closeHandler, jsNumOr]
      have h2 := hval.symm.trans h
      injection h2 with h3
      rw [← h3]
      exact ⟨rfl, rfl⟩
    · simp [settle, closeHandler, hc] at h

/-- Witness for C9 at a concrete resolving run. -/
theorem settle_ok_implies_success_witness :
    (DenoCommandResult.success
        { success := true, stdout := "ok", stderr := "",
          code := 0, duration := 7 } = true) ∧
    (DenoCommandResult.code
        { success := true, stdout := "ok", stderr := "",
          code := 0, duration := 7 } = 0) :=
  settle_ok_implies_success (.close (some 0)) "ok" "" 30000 7
    { success := true, stdout := "ok", stderr := "",
      code := 0, duration := 7 } (by simp [settle, closeHandler, jsNumOr])

/-- C6: the Argument Translator processes tokens one by one in order;
a token already prefixed with `--` passes through unchanged, each of
the nine recognized shorthands maps to its canonical full flag, and an
unrecognized symbol passes through unchanged rather than erroring. -/
theorem permission_translation (perms : List String) (t u : String)
    (hlit : startsWithDashDash t = true)
    (hu1 : startsWithDashDash u = false) (hu2 : u ∉ shorthandNames) :
    buildPermissionArgs perms = perms.map permMap ∧
    permMap t = t ∧
    permMap "read" = "--allow-read" ∧
    permMap "write" = "--allow-write" ∧
    permMap "net" = "--allow-net" ∧
    permMap "env" = "--allow-env" ∧
    permMap "run" = "--allow-run" ∧
    permMap "ffi" = "--allow-ffi" ∧
    permMap "hrtime" = "--allow-hrtime" ∧
    permMap "sys" = "--allow-sys" ∧
    permMap "all" = "--allow-all" ∧
    permMap u = u := by
  refine ⟨?_, ?_, by decide, by decide, by decide, by decide, by decide,
    by decide, by decide, by decide, by decide, ?_⟩
  · induction perms with
    | nil => rfl
    | cons p rest ih => simp [buildPermissionArgs, ih]
  · simp [permMap, hlit]
  · simp only [shorthandNames, List.mem_cons, List.not_mem_nil, or_false,
      not_or] at hu2
    obtain ⟨h1, h2, h3, h4, h5, h6, h7, h8, h9⟩ := hu2
    simp [permMap, hu1, h1, h2, h3, h4, h5, h6, h7, h8, h9]

/-- Witness for C6 on a literal flag, the shorthand list, and an
unrecognized symbol. -/
theorem permission_translation_witness :
    buildPermissionArgs ["read"] = List.map permMap ["read"] ∧
    permMap "--allow-net" = "--allow-net" ∧
    permMap "read" = "--allow-read" ∧
    permMap "write" = "--allow-write" ∧
    permMap "net" = "--allow-net" ∧
    permMap "env" = "--allow-env" ∧
    permMap "run" = "--allow-run" ∧
    permMap "ffi" = "--allow-ffi" ∧
    permMap "hrtime" = "--allow-hrtime" ∧
    permMap "sys" = "--allow-sys" ∧
    permMap "all" = "--allow-all" ∧
    permMap "custom-token" = "custom-token" :=
  permission_translation ["read"] "--allow-net" "custom-token"
    (by decide) (by decide) (by decide)

/-- C7: on a list containing only literal flags (each already prefixed
with `--`), translation is the identity — the output equals the input
in order — and translating the output again yields the same list. -/
theorem literal_flags_idempotent (perms : List String)
    (hlit : ∀ p ∈ perms, startsWithDashDash p = true) :
    buildPermissionArgs perms = perms ∧
    buildPermissionArgs (buildPermissionArgs perms) =
      buildPermissionArgs perms := by
  have h : buildPermissionArgs perms = perms := by
    induction perms with
    | nil => rfl
    | cons p rest ih =>
      have hp := hlit p (List.mem_cons_self p rest)
      have hr : ∀ q ∈ rest, startsWithDashDash q = true :=
        fun q hq => hlit q (List.mem_cons_of_mem p hq)
      simp [buildPermissionArgs, permMap, hp, ih hr]
  exact ⟨h, by rw [h, h]⟩

/-- Witness for C7 on a concrete list of two literal flags. -/
theorem literal_flags_idempotent_witness :
    buildPermissionArgs ["--allow-read", "--allow-net"] =
      ["--allow-read", "--allow-net"] ∧
    buildPermissionArgs
        (buildPermissionArgs ["--allow-read", "--allow-net"]) =
      buildPermissionArgs ["--allow-read", "--allow-net"] :=
  literal_flags_idempotent ["--allow-read", "--allow-net"] (by decide)

/-- C8: at the dispatcher boundary, an `McpError` escaping the `try`
block is rethrown unchanged, any other exception is rewrapped as an
`InternalError` with the underlying message attached, and every
exception escaping the body surfaces as some `McpError` — an
unclassified failure never propagates. -/
theorem dispatcher_error_wrapping {α : Type}
    (tools : List (String × Tool α)) (name : String) (tool : Tool α)
    (args : Option Args) (e : McpError) (m : Option String)
    (hlook : tools.lookup name = some tool) :
    (tryBody tool (args.getD []) = .error (.mcp e) →
      dispatchTool tools name args = .error e) ∧
    (tryBody tool (args.getD []) = .error (.js m) →
      dispatchTool tools name args =
        .error ⟨.internalError,
          "Tool execution failed: " ++ m.getD "Unknown error"⟩) ∧
    (∀ b : JsError, ∃ e' : McpError,
      catchWrap (α := α) (.error b) = .error e' ∧
      (∀ e₀, b = .mcp e₀ → e' = e₀) ∧
      (∀ m₀, b = .js m₀ →
        e' = ⟨.internalError,
          "Tool execution failed: " ++ m₀.getD "Unknown error"⟩)) := by
  refine ⟨?_, ?_, ?_⟩
  · intro h
    simp [dispatchTool, hlook, h, catchWrap]
  · intro h
    simp [dispatchTool, hlook, h, catchWrap]
  · intro b
    cases b with
    | mcp e₀ =>
      refine ⟨e₀, rfl, ?_, ?_⟩
      · intro e₁ h; cases h; rfl
      · intro m₁ h; cases h
    | js m₀ =>
      refine ⟨_, rfl, ?_, ?_⟩
      · intro e₁ h; cases h
      · intro m₁ h; cases h; rfl

/-- Witness for C8: a handler that throws a plain `Error "boom"` is
reported as `InternalError` with the message attached. -/
theorem dispatcher_error_wrapping_witness :
    dispatchTool
        [("deno_run",
          (⟨none, fun _ => Except.error (.js (some "boom"))⟩ : Tool Nat))]
        "deno_run" none =
      .error ⟨.internalError, "Tool execution failed: boom"⟩ :=
  (dispatcher_error_wrapping
    [("deno_run", ⟨none, fun _ => Except.error (.js (some "boom"))⟩)]
    "deno_run" ⟨none, fun _ => Except.error (.js (some "boom"))⟩ none
    ⟨.invalidParams, ""⟩ (some "boom") rfl).2.1 rfl

/-- C4: the session-map release (`transport.onclose`) is idempotent:
closing an unknown identifier is a no-op, closing twice equals closing
once, and the identifier is absent from the map after the first close
and after the second. -/
theorem closeSession_idempotent (m : SessionMap) (s : String)
    (hs : s ≠ "") :
    (s ∉ m → closeSession m (some s) = m) ∧
    closeSession (closeSession m (some s)) (some s) =
      closeSession m (some s) ∧
    s ∉ closeSession m (some s) ∧
    s ∉ closeSession (closeSession m (some s)) (some s) ∧
    closeSession m none = m := by
  have hnoop : ∀ m' : SessionMap, s ∉ m' → closeSession m' (some s) = m' := by
    intro m' hm'
    simp [closeSession, hm']
  have habsent : s ∉ closeSession m (some s) := by
    by_cases hm : s ∈ m
    · simp [closeSession, hs, hm, List.mem_filter]
    · rw [hnoop m hm]; exact hm
  have htwice : closeSession (closeSession m (some s)) (some s) =
      closeSession m (some s) := hnoop _ habsent
  refine ⟨fun hm => hnoop m hm, htwice, habsent, ?_, rfl⟩
  rw [htwice]; exact habsent

/-- Witness for C4 on a concrete two-session map. -/
theorem closeSession_idempotent_witness :
    ("a" ∉ (["b"] : SessionMap) →
      closeSession ["b"] (some "a") = ["b"]) ∧
    closeSession (closeSession ["a", "b"] (some "a")) (some "a") =
      closeSession ["a", "b"] (some "a") ∧
    "a" ∉ closeSession ["a", "b"] (some "a") ∧
    "a" ∉ closeSession (closeSession ["a", "b"] (some "a")) (some "a") ∧
    closeSession ["a", "b"] none = ["a", "b"] := by
  have h := closeSession_idempotent ["a", "b"] "a" (by decide)
  exact ⟨fun _ => (closeSession_idempotent ["b"] "a" (by decide)).1
    (by decide), h.2.1, h.2.2.1, h.2.2.2.1, h.2.2.2.2⟩

/-- C5: a non-initializing POST whose session identifier is missing or
unknown is answered with the client error (HTTP 400, JSON-RPC code
-32000); no session is registered and no transport handles the request
(hence no process is spawned). -/
theorem post_rejects_unknown_session (m : SessionMap)
    (sessionId : Option String) (isInit : Bool) (freshId : String)
    (hni : isInit = false)
    (hunknown : ∀ s, sessionId = some s → s ∉ m) :
    routePost m sessionId isInit = .badRequest 400 (-32000) ∧
    mapAfterPost m sessionId isInit freshId = m ∧
    postHandlesRequest m sessionId isInit = false := by
  subst hni
  have hroute : routePost m sessionId false = .badRequest 400 (-32000) := by
    cases sessionId with
    | none => rfl
    | some s =>
      have hs := hunknown s rfl
      simp only [routePost]
      rw [if_neg (by tauto)]
      simp
  refine ⟨hroute, ?_, ?_⟩
  · simp only [mapAfterPost, hroute]
  · simp only [postHandlesRequest, hroute]

/-- Witness for C5: a tool-call POST carrying an identifier unknown to
a concrete session map is rejected and spawns nothing. -/
theorem post_rejects_unknown_session_witness :
    routePost ["abc"] (some "zzz") false = .badRequest 400 (-32000) ∧
    mapAfterPost ["abc"] (some "zzz") false "fresh" = ["abc"] ∧
    postHandlesRequest ["abc"] (some "zzz") false = false :=
  post_rejects_unknown_session ["abc"] (some "zzz") false "fresh" rfl
    (fun s hs => by cases hs; decide)

/-- `checkEntryType` in closed form: passes exactly when the declared
kind matches, and otherwise throws the invalid-parameters error naming
the key and the expected kind. -/
theorem checkEntryType_eq (k : String) (v : JsValue) (t : SType) :
    checkEntryType k v t =
      if typeMatches t v then .ok ()
      else .error ⟨.invalidParams,
        "Parameter " ++ k ++ " must be " ++ kindText t⟩ := by
  cases t <;> cases hm : typeMatches _ v <;>
    simp_all [checkEntryType, typeMatches, kindText, String.append_assoc]

/-- If a required key is missing, the required-key loop throws the
invalid-parameters error naming the first missing required key. -/
theorem checkRequired_error_of_missing (args : Args) (req : List String)
    (k : String) (hk : k ∈ req) (hmiss : args.lookup k = none) :
    ∃ k', k' ∈ req ∧ args.lookup k' = none ∧
      checkRequired args req =
        .error ⟨.invalidParams, "Missing required parameter: " ++ k'⟩ := by
  induction req with
  | nil => cases hk
  | cons r rest ih =>
    by_cases hr : (args.lookup r).isSome = true
    · have hk' : k ∈ rest := by
        rcases List.mem_cons.mp hk with heq | h
        · subst heq; rw [hmiss] at hr; cases hr
        · exact h
      obtain ⟨k', h1, h2, h3⟩ := ih hk'
      exact ⟨k', List.mem_cons_of_mem _ h1, h2,
        by simp [checkRequired, hr, h3]⟩
    · refine ⟨r, List.mem_cons_self r rest, ?_, by simp [checkRequired, hr]⟩
      rw [Option.not_isSome_iff_eq_none] at hr
      exact hr

/-- A lookup that succeeds on `args` is unchanged by appending more
entries after it. -/
theorem lookup_append_of_isSome {β : Type} (args extras : List (String × β))
    (k : String) (h : (args.lookup k).isSome = true) :
    (args ++ extras).lookup k = args.lookup k := by
  induction args with
  | nil => simp [List.lookup] at h
  | cons p rest ih =>
    obtain ⟨b, e⟩ := p
    by_cases hb : (k == b) = true
    · simp [List.lookup, hb]
    · have hb' : (k == b) = false := by simpa using hb
      simp only [List.cons_append, List.lookup, hb'] at h ⊢
      exact ih h

/-- Appending entries cannot break the required-key check. -/
theorem checkRequired_ok_append (args extras : Args) (req : List String)
    (hok : checkRequired args req = .ok ()) :
    checkRequired (args ++ extras) req = .ok () := by
  induction req with
  | nil => rfl
  | cons r rest ih =>
    by_cases hr : (args.lookup r).isSome = true
    · have hr2 : ((args ++ extras).lookup r).isSome = true := by
        rw [lookup_append_of_isSome args extras r hr]; exact hr
      simp only [checkRequired, hr, if_true] at hok
      simp [checkRequired, hr2, ih hok]
    · simp [checkRequired, hr] at hok

/-- Appending entries with no declared property schema cannot break the
type check: each appended entry is skipped by the loop. -/
theorem checkTypes_ok_append (props : List (String × SType))
    (args extras : Args) (hok : checkTypes props args = .ok ())
    (hext : ∀ p ∈ extras, props.lookup p.1 = none) :
    checkTypes props (args ++ extras) = .ok () := by
  induction args with
  | nil =>
    simp only [List.nil_append]
    clear hok
    induction extras with
    | nil => rfl
    | cons p rest ih =>
      obtain ⟨k₀, v₀⟩ := p
      have hp := hext (k₀, v₀) (List.mem_cons_self _ _)
      simp only [checkTypes, hp]
      exact ih (fun q hq => hext q (List.mem_cons_of_mem _ hq))
  | cons p rest ih =>
    obtain ⟨k₀, v₀⟩ := p
    cases hl : props.lookup k₀ with
    | none =>
      simp only [checkTypes, hl] at hok
      simp only [List.cons_append, checkTypes, hl]
      exact ih hok
    | some t₀ =>
      simp only [checkTypes, hl] at hok
      simp only [List.cons_append, checkTypes, hl]
      cases hce : checkEntryType k₀ v₀ t₀ with
      | error e => simp [hce] at hok
      | ok u => simp only [hce] at hok ⊢; exact ih hok

/-- If every required key is present and some present declared entry
mismatches its kind, the type-check loop throws the invalid-parameters
error naming the first such entry's key and expected kind. -/
theorem checkTypes_error_of_mismatch (props : List (String × SType))
    (args : Args) (k : String) (v : JsValue) (t : SType)
    (hin : (k, v) ∈ args) (hd : props.lookup k = some t)
    (hmm : typeMatches t v = false) :
    ∃ k' v' t', (k', v') ∈ args ∧ props.lookup k' = some t' ∧
      typeMatches t' v' = false ∧
      checkTypes props args =
        .error ⟨.invalidParams,
          "Parameter " ++ k' ++ " must be " ++ kindText t'⟩ := by
  induction args with
  | nil => cases hin
  | cons p rest ih =>
    obtain ⟨k₀, v₀⟩ := p
    cases hl : props.lookup k₀ with
    | none =>
      have hin' : (k, v) ∈ rest := by
        rcases List.mem_cons.mp hin with heq | h
        · rw [Prod.mk.injEq] at heq
          obtain ⟨hk, hv⟩ := heq
          subst hk
          rw [hd] at hl
          cases hl
        · exact h
      obtain ⟨k', v', t', h1, h2, h3, h4⟩ := ih hin'
      exact ⟨k', v', t', List.mem_cons_of_mem _ h1, h2, h3,
        by simp [checkTypes, hl, h4]⟩
    | some t₀ =>
      cases hmatch : typeMatches t₀ v₀ with
      | false =>
        refine ⟨k₀, v₀, t₀, List.mem_cons_self _ _, hl, hmatch, ?_⟩
        simp [checkTypes, hl, checkEntryType_eq, hmatch]
      | true =>
        have hin' : (k, v) ∈ rest := by
          rcases List.mem_cons.mp hin with heq | h
          · rw [Prod.mk.injEq] at heq
            obtain ⟨hk, hv⟩ := heq
            subst hk; subst hv
            rw [hd] at hl
            injection hl with hl'
            subst hl'
            rw [hmm] at hmatch
            cases hmatch
          · exact h
        obtain ⟨k', v', t', h1, h2, h3, h4⟩ := ih hin'
        refine ⟨k', v', t', List.mem_cons_of_mem _ h1, h2, h3, ?_⟩
        simp [checkTypes, hl, checkEntryType_eq, hmatch, h4]

/-- C3: dispatch validation rejects a missing required key with an
invalid-parameters error naming a missing required key, rejects a
present declared entry of the wrong kind with an invalid-parameters
error naming an offending key and its expected kind, and whenever
validation throws, the handler never runs — the dispatch outcome is the
same for any two handlers, so no process is spawned. -/
theorem dispatch_validation {α : Type} (name : String)
    (hdl hdl₂ : Args → Except JsError α) (sch : Schema)
    (props : List (String × SType)) (args : Args)
    (hprops : sch.properties = some props) :
    (∀ k, k ∈ sch.required.getD [] → args.lookup k = none →
      ∃ k', k' ∈ sch.required.getD [] ∧ args.lookup k' = none ∧
        dispatchTool [(name, ⟨some sch, hdl⟩)] name (some args) =
          .error ⟨.invalidParams, "Missing required parameter: " ++ k'⟩) ∧
    (∀ k v t, checkRequired args (sch.required.getD []) = .ok () →
      (k, v) ∈ args → props.lookup k = some t → typeMatches t v = false →
      ∃ k' v' t', (k', v') ∈ args ∧ props.lookup k' = some t' ∧
        typeMatches t' v' = false ∧
        dispatchTool [(name, ⟨some sch, hdl⟩)] name (some args) =
          .error ⟨.invalidParams,
            "Parameter " ++ k' ++ " must be " ++ kindText t'⟩) ∧
    (∀ e, validateArguments args (some sch) = .error e →
      dispatchTool [(name, ⟨some sch, hdl⟩)] name (some args) =
        dispatchTool [(name, ⟨some sch, hdl₂⟩)] name (some args)) := by
  refine ⟨?_, ?_, ?_⟩
  · intro k hk hmiss
    obtain ⟨k', h1, h2, herr⟩ :=
      checkRequired_error_of_missing args (sch.required.getD []) k hk hmiss
    refine ⟨k', h1, h2, ?_⟩
    simp [dispatchTool, List.lookup, tryBody, validateArguments, hprops,
      herr, catchWrap]
  · intro k v t hreq hin hd hmm
    obtain ⟨k', v', t', h1, h2, h3, herr⟩ :=
      checkTypes_error_of_mismatch props args k v t hin hd hmm
    refine ⟨k', v', t', h1, h2, h3, ?_⟩
    simp [dispatchTool, List.lookup, tryBody, validateArguments, hprops,
      hreq, herr, catchWrap]
  · intro e hv
    simp [dispatchTool, List.lookup, tryBody, hv, catchWrap]

/-- Witness for C3: dispatching a tool whose schema requires `path`
with empty arguments throws `InvalidParams` naming `path`, for a
handler it never consults. -/
theorem dispatch_validation_witness :
    dispatchTool
        [("deno_fmt",
          (⟨some ⟨some [("path", SType.string)], some ["path"]⟩,
            fun _ => Except.ok (0 : Nat)⟩ : Tool Nat))]
        "deno_fmt" (some []) =
      .error ⟨.invalidParams, "Missing required parameter: path"⟩ := by
  obtain ⟨k', hk', hmiss, heq⟩ :=
    (dispatch_validation "deno_fmt" (fun _ => Except.ok (0 : Nat))
      (fun _ => Except.ok (0 : Nat))
      ⟨some [("path", SType.string)], some ["path"]⟩
      [("path", SType.string)] [] rfl).1 "path" (by decide) rfl
  simp only [Option.getD, List.mem_singleton] at hk'
  subst hk'
  exact heq

/-- C10: argument keys not declared in the schema's properties are
ignored: appending undeclared entries to an argument object that
validates cannot make validation reject. -/
theorem extra_keys_ignored (args extras : Args) (schema : Option Schema)
    (hok : validateArguments args schema = .ok ())
    (hext : ∀ s props, schema = some s → s.properties = some props →
      ∀ p ∈ extras, props.lookup p.1 = none) :
    validateArguments (args ++ extras) schema = .ok () := by
  cases schema with
  | none => rfl
  | some s =>
    cases hp : s.properties with
    | none => simp [validateArguments, hp]
    | some props =>
      have hext' := hext s props rfl hp
      simp only [validateArguments, hp] at hok ⊢
      cases hr : checkRequired args (s.required.getD []) with
      | error e => simp [hr] at hok
      | ok u =>
        simp only [hr] at hok
        have hr2 := checkRequired_ok_append args extras _ (by
          cases u; exact hr)
        simp only [hr2]
        exact checkTypes_ok_append props args extras hok hext'

/-- Witness for C10: an argument object with an undeclared extra key
still validates against a schema declaring one required string. -/
theorem extra_keys_ignored_witness :
    validateArguments ([("a", .str "x")] ++ [("zz", .num 3)])
      (some ⟨some [("a", SType.string)], some ["a"]⟩) = .ok () := by
  refine extra_keys_ignored [("a", .str "x")] [("zz", .num 3)]
    (some ⟨some [("a", SType.string)], some ["a"]⟩) rfl ?_
  intro s props hs hp p hp2
  cases hs
  injection hp with hp'
  subst hp'
  rw [List.mem_singleton] at hp2
  subst hp2
  rfl

end DenoMcp
